import Mathlib

/-!
Verification of the monodepth2 fork's geometric-calibration and
inference-output pipeline: a shallow embedding of
`datasets/oxford_dataset.py` and `test_simple.py`, with theorems checking
the design document's claims against it.

Real numbers appearing in the Python source (float literals, true
division) are modelled with exact rationals `ℚ`.
-/

set_option autoImplicit false

/-! ### Intrinsics Calibrator (`OXFORDDataset.__init__`, oxford_dataset.py lines 28-59) -/

/-- A crop window `(x0, y0, x1, y1)` in original-image pixel coordinates,
as the tuple `self.crop_area` in `OXFORDDataset.__init__`. -/
structure CropArea where
  x0 : ℚ
  y0 : ℚ
  x1 : ℚ
  y1 : ℚ
deriving DecidableEq

/-- Normalized camera intrinsics: the four non-trivial entries of the
4x4 homogeneous matrix `self.K` (row0 = [fx,0,cx,0], row1 = [0,fy,cy,0]). -/
structure CameraIntrinsics where
  fx : ℚ
  fy : ℚ
  cx : ℚ
  cy : ℚ
deriving DecidableEq

/-- The width `crop_width = crop_area[2] - crop_area[0]` (oxford_dataset.py line 47). -/
def crop_width (crop : CropArea) : ℚ := crop.x1 - crop.x0

/-- The height `crop_height = crop_area[3] - crop_area[1]` (oxford_dataset.py line 48). -/
def crop_height (crop : CropArea) : ℚ := crop.y1 - crop.y0

/-- The row `crop_ci = crop_area[3] - (crop_height / 2)` (line 49) of the crop
window center, anchored at the bottom edge. -/
def crop_ci (crop : CropArea) : ℚ := crop.y1 - crop_height crop / 2

/-- The column `crop_cj = crop_area[2] - (crop_width / 2)` (line 50) of the crop
window center, anchored at the right edge. -/
def crop_cj (crop : CropArea) : ℚ := crop.x1 - crop_width crop / 2

/-- The crop center pair `(crop_cj, crop_ci)` as computed by the code. -/
def crop_center (crop : CropArea) : ℚ × ℚ := (crop_cj crop, crop_ci crop)

/-- The true geometric center of the crop window: the midpoint of its
corners. -/
def true_center (crop : CropArea) : ℚ × ℚ :=
  ((crop.x0 + crop.x1) / 2, (crop.y0 + crop.y1) / 2)

/-- The intrinsics computation of `OXFORDDataset.__init__` (lines 28-59),
with the hard-coded sensor size, pixel intrinsics and crop window of the
source turned into parameters:
`fx /= width`, `fy /= height` (lines 31, 33),
`crop_cx = cx + float(crop_width-1)/2 - crop_cj` (line 51),
`crop_cy = cy + float(crop_height-1)/2 - crop_ci` (line 52),
`crop_cx /= width`, `crop_cy /= height` (lines 53-54). -/
def compute_cropped_intrinsics (width height fx_px fy_px cx_px cy_px : ℚ)
    (crop : CropArea) : CameraIntrinsics :=
  let fx := fx_px / width
  let fy := fy_px / height
  let crop_cx := cx_px + (crop_width crop - 1) / 2 - crop_cj crop
  let crop_cy := cy_px + (crop_height crop - 1) / 2 - crop_ci crop
  { fx := fx, fy := fy, cx := crop_cx / width, cy := crop_cy / height }

/-- The hard-coded crop window `self.crop_area = (0, 300, 1280, 760)` (line 46). -/
def oxford_crop_area : CropArea := ⟨0, 300, 1280, 760⟩

/-- The single intrinsics configuration built by `OXFORDDataset.__init__`:
sensor 1280x960, `fx = fy = 983.044006`, `cx = 643.646973`,
`cy = 493.378998` (lines 28-35), cropped by `(0, 300, 1280, 760)`. -/
def oxfordK : CameraIntrinsics :=
  compute_cropped_intrinsics 1280 960 983.044006 983.044006 643.646973 493.378998
    oxford_crop_area

/-! ### Image Path Resolver (`OXFORDRAWDataset.get_image_path`, oxford_dataset.py lines 105-113, and `OXFORDDataset.side_map`, line 61) -/

/-- The table `self.side_map = {"l": "left", "r": "right"}` (line 61), as an
association list looked up by key. -/
def side_map : List (String × String) := [("l", "left"), ("r", "right")]

/-- Failure of the path resolver: looking up a side token absent from
`side_map` raises a `KeyError` in Python (the design document calls this
`UnknownSideError`). -/
inductive UnknownSideError where
  | unknownSide (side : String) : UnknownSideError
deriving DecidableEq

/-- The path resolver `OXFORDRAWDataset.get_image_path` (lines 105-113):
`f_str = "{}{}".format(frame_index, self.img_ext)`, then
`os.path.join(folder, "{}".format(self.side_map[side]), f_str)`.
The dictionary access `self.side_map[side]` fails on unknown keys, so the
result is in `Except`. -/
def get_image_path (folder frame_index side img_ext : String) :
    Except UnknownSideError String :=
  let f_str := frame_index ++ img_ext
  match (side_map.lookup side) with
  | some side_name => Except.ok (folder ++ "/" ++ side_name ++ "/" ++ f_str)
  | none => Except.error (UnknownSideError.unknownSide side)

/-! ### Depth/Scale Resolver (test_simple.py lines 222-239) -/

/-- The constant `oxford_baseline = 0.24` (test_simple.py line 231): the baseline between
the left and right Oxford cameras, in meters. -/
def oxford_baseline : ℚ := 0.24

/-- The factor `stereo_scale_factor = oxford_baseline / 0.1` (test_simple.py line 232). -/
def oxford_stereo_scale_factor : ℚ := oxford_baseline / 0.1

/-- The OXFORD branch of metric scaling, applied elementwise to the raw
depth map: `metric_depth = stereo_scale_factor * depth.cpu().numpy()`
(test_simple.py line 233). -/
def oxford_metric_depth (raw_depth : ℚ) : ℚ := oxford_stereo_scale_factor * raw_depth

/-! ### Inference Driver: the per-frame pipeline (test_simple.py lines 192-251)

The network forward pass is an external collaborator, so the disparity
tensor is tracked symbolically: a term records how the tensor was produced
(decoder output at feed resolution, interpolation, elementwise transforms)
and its shape, while the actual pixel values stay abstract. -/

/-- The two dataset kinds of `--dataset` (test_simple.py lines 62-65). -/
inductive Dataset where
  | KITTI
  | OXFORD
deriving DecidableEq

/-- Interpolation mode of `torch.nn.functional.interpolate`. -/
inductive InterpMode where
  | bilinear
  | nearest
deriving DecidableEq

/-- Resampling filter of `PIL.Image.resize`. -/
inductive ResampleFilter where
  | lanczos
  | bicubic
deriving DecidableEq

/-- The preprocessing history of the input image, mirroring lines 200-208:
load (`pil.open(...).convert('RGB')`), optional `input_image.crop(crop_area)`,
and `input_image.resize((feed_width, feed_height), pil.LANCZOS)`.
PIL crop semantics: the cropped image has size `(x1-x0, y1-y0)`. -/
inductive ImageState where
  | loaded (width height : ℚ)
  | cropped (src : ImageState) (crop : CropArea)
  | resized (src : ImageState) (width height : ℚ) (filter : ResampleFilter)
deriving DecidableEq

/-- The size `input_image.size`: the `(width, height)` of the image in its current
state. -/
def ImageState.size : ImageState → ℚ × ℚ
  | ImageState.loaded w h => (w, h)
  | ImageState.cropped _ crop => (crop.x1 - crop.x0, crop.y1 - crop.y0)
  | ImageState.resized _ w h _ => (w, h)

/-- Symbolic disparity/depth tensors of the per-frame block:
`disp = outputs[("disp", 0)]` is the decoder output at feed resolution
(line 216); `interp` is `torch.nn.functional.interpolate` (lines 217-218);
`scaledDispOf`/`depthOf` are the two results of `disp_to_depth(disp, 0.1, 100)`
(line 222, external `layers.disp_to_depth`); `scale` is elementwise
multiplication by a scalar (lines 228/233). -/
inductive Tensor where
  | decoderDisp (feedHeight feedWidth : ℚ)
  | interp (src : Tensor) (height width : ℚ) (mode : InterpMode) (alignCorners : Bool)
  | scaledDispOf (src : Tensor)
  | depthOf (src : Tensor)
  | scale (factor : ℚ) (src : Tensor)
deriving DecidableEq

/-- The `(height, width)` shape of a symbolic tensor: interpolation changes
it, elementwise transforms preserve it. -/
def Tensor.shape : Tensor → ℚ × ℚ
  | Tensor.decoderDisp h w => (h, w)
  | Tensor.interp _ h w _ _ => (h, w)
  | Tensor.scaledDispOf src => src.shape
  | Tensor.depthOf src => src.shape
  | Tensor.scale _ src => src.shape

/-- Modelled from the spec: `disp_to_depth` lives in `layers.py`, which is
not among the source files; the design document describes it as "the
standard disparity-to-depth transform ... producing
`(scaled_disparity, raw_depth)`", an elementwise pair of transforms of the
network disparity, kept symbolic here. -/
def disp_to_depth (disp : Tensor) : Tensor × Tensor :=
  (Tensor.scaledDispOf disp, Tensor.depthOf disp)

/-- A file written by the per-frame block: a numeric `.npy` array
(`np.save`, lines 235/239) or the colormapped `.jpeg` (line 251), the
latter with the array it renders and its normalization range `(vmin, vmax)`
kept as the tensor it is computed from. -/
inductive FileSave where
  | npy (name : String) (data : Tensor)
  | jpeg (name : String) (source : Tensor)
deriving DecidableEq

/-- Per-frame inputs of the loop body: the command-line configuration
(`--dataset`, `--pred_metric_depth`, `--crop_area`), the loaded image's
size, the model's feed resolution (lines 118-119) and the output name stem
`os.path.splitext(os.path.basename(image_path))[0]` (line 221). -/
structure FrameArgs where
  dataset : Dataset
  pred_metric_depth : Bool
  crop_area : CropArea
  imageWidth : ℚ
  imageHeight : ℚ
  feed_width : ℚ
  feed_height : ℚ
  output_name : String
deriving DecidableEq

/-- The outcome of one iteration of the prediction loop. -/
structure FrameOutput where
  input_image : ImageState
  disp : Tensor
  disp_resized : Tensor
  saves : List FileSave
deriving DecidableEq

/-- One iteration of the prediction loop (test_simple.py lines 200-251),
for `STEREO_SCALE_FACTOR` the KITTI constant imported from
`evaluate_depth` (not among the source files, hence a parameter):
load the image; crop it iff the dataset is OXFORD (lines 203-205); read
`original_width, original_height = input_image.size` after the crop
(line 207); resize to the feed resolution with LANCZOS (line 208); take the
decoder disparity at feed resolution (line 216); interpolate it to
`(original_height, original_width)` bilinearly with `align_corners=False`
(lines 217-218); save one `.npy` — metric depth scaled per dataset if
`pred_metric_depth`, else the scaled disparity (lines 221-239); save the
colormapped `.jpeg` rendered from `disp_resized` (lines 241-251). -/
def processFrame (STEREO_SCALE_FACTOR : ℚ) (a : FrameArgs) : FrameOutput :=
  let img0 := ImageState.loaded a.imageWidth a.imageHeight
  let img1 := if a.dataset = Dataset.OXFORD then ImageState.cropped img0 a.crop_area else img0
  let original_width := img1.size.1
  let original_height := img1.size.2
  let input_image := ImageState.resized img1 a.feed_width a.feed_height ResampleFilter.lanczos
  let disp := Tensor.decoderDisp a.feed_height a.feed_width
  let disp_resized :=
    Tensor.interp disp original_height original_width InterpMode.bilinear false
  let sd := disp_to_depth disp
  let scaled_disp := sd.1
  let depth := sd.2
  let npySave :=
    if a.pred_metric_depth then
      FileSave.npy (a.output_name ++ "_depth.npy")
        (if a.dataset = Dataset.KITTI then Tensor.scale STEREO_SCALE_FACTOR depth
         else Tensor.scale oxford_stereo_scale_factor depth)
    else
      FileSave.npy (a.output_name ++ "_disp.npy") scaled_disp
  { input_image := input_image
    disp := disp
    disp_resized := disp_resized
    saves := [npySave, FileSave.jpeg (a.output_name ++ "_disp.jpeg") disp_resized] }

/-- The `.npy` saves among a frame's file writes. -/
def npySaves (saves : List FileSave) : List FileSave :=
  saves.filter fun s =>
    match s with
    | FileSave.npy _ _ => true
    | FileSave.jpeg _ _ => false

/-! ### Artifact Writer numerics (test_simple.py lines 235-251)

The visualization block works on the concrete array
`disp_resized_np = disp_resized.squeeze().cpu().numpy()`; it is modelled as
a flattened list of exact rationals. -/

/-- Insert a value into a sorted list, keeping it sorted. -/
def insertSorted (x : ℚ) : List ℚ → List ℚ
  | [] => [x]
  | y :: ys => if x ≤ y then x :: y :: ys else y :: insertSorted x ys

/-- Sort a list of rationals ascending, as `np.percentile` sorts the
flattened array internally. -/
def sortQ (xs : List ℚ) : List ℚ := xs.foldr insertSorted []

/-- The percentile `np.percentile(a, q)` with the default linear interpolation: on the
sorted array `s` of length `n`, the value at fractional rank
`pos = q/100 * (n-1)` is `s[i] + (pos-i) * (s[i+1]-s[i])` for
`i = floor(pos)` (and `s[i]` itself when there is no element above).
Used at `vmax = np.percentile(disp_resized_np, 95)` (line 243). -/
def np_percentile (xs : List ℚ) (q : ℚ) : ℚ :=
  let s := sortQ xs
  let n := s.length
  let pos := q / 100 * ((n : ℚ) - 1)
  let i := (⌊pos⌋).toNat
  let frac := pos - (i : ℚ)
  match s.get? i, s.get? (i + 1) with
  | some lo, some hi => lo + frac * (hi - lo)
  | some lo, none => lo
  | none, _ => 0

/-- The minimum `array.min()` of a (nonempty) flattened array, used at
`vmin=disp_resized_np.min()` (line 244). -/
def np_min (xs : List ℚ) : ℚ :=
  match xs with
  | [] => 0
  | x :: rest => rest.foldl min x

/-- The numeric effect of the artifact-writing block on one frame:
`np.save(name_dest_npy, ...)` persists the numeric array exactly as given
(lines 235/239), while the colormap normalizer is built with
`vmin=disp_resized_np.min()` and `vmax=np.percentile(disp_resized_np, 95)`
(lines 243-244). -/
structure ArtifactNumerics where
  npyData : List ℚ
  visVmin : ℚ
  visVmax : ℚ
deriving DecidableEq

/-- Writing one frame's artifacts, numerically: the `.npy` file receives
`numeric_array` unmodified, and the visualization range is
`(min, 95th percentile)` of `disp_resized_np`. -/
def write_artifacts (numeric_array disp_resized_np : List ℚ) : ArtifactNumerics :=
  { npyData := numeric_array
    visVmin := np_min disp_resized_np
    visVmax := np_percentile disp_resized_np 95 }

/-- A synthetic disparity map whose last pixel is an extreme outlier:
twenty pixels of value 1 and one pixel of value 1000. -/
def outlierMap : List ℚ := List.replicate 20 1 ++ [1000]

/-! ### Run-level control flow (test_simple.py lines 96-98 and 192-258) -/

/-- Whether `pat` is a prefix of the character list. -/
def isPrefixChars : List Char → List Char → Bool
  | [], _ => true
  | _ :: _, [] => false
  | p :: ps, c :: cs => p == c && isPrefixChars ps cs

/-- Whether `pat` occurs as a contiguous sublist of the character list. -/
def containsChars (pat : List Char) : List Char → Bool
  | [] => isPrefixChars pat []
  | c :: cs => isPrefixChars pat (c :: cs) || containsChars pat cs

/-- Python's `"stereo" in args.model_name`: substring containment. -/
def containsStereo (s : String) : Bool := containsChars "stereo".data s.data

/-- Python's `image_path.endswith(suffix)`: the suffix's characters,
reversed, are a prefix of the reversed string. -/
def endsWithStr (s sfx : String) : Bool :=
  isPrefixChars sfx.data.reverse s.data.reverse

/-- The condition of the warning at lines 96-98:
`if args.pred_metric_depth and "stereo" not in args.model_name`. -/
def metricWarning (pred_metric_depth : Bool) (model_name : String) : Bool :=
  pred_metric_depth && !(containsStereo model_name)

/-- Run-level inputs: the warning-relevant flags and the per-frame inputs
of every path found, each tagged with its image path (for the
`_disp.jpg` skip at line 195). -/
structure RunArgs where
  model_name : String
  pred_metric_depth : Bool
  frames : List (String × FrameArgs)
deriving DecidableEq

/-- The run after model loading (test_simple.py lines 96-98 and 192-258):
the warning is a `print` and nothing else — control falls through to the
prediction loop, which processes every path not ending in `"_disp.jpg"`
(line 195) to completion. Returns whether the warning fired and the
outputs of all processed frames. -/
def runInference (STEREO_SCALE_FACTOR : ℚ) (r : RunArgs) : Bool × List FrameOutput :=
  (metricWarning r.pred_metric_depth r.model_name,
   (r.frames.filter fun f => !(endsWithStr f.1 "_disp.jpg")).map
     fun f => processFrame STEREO_SCALE_FACTOR
       { f.2 with pred_metric_depth := r.pred_metric_depth })

/-- Whether a symbolic tensor was computed (directly or through elementwise
transforms) from an interpolated tensor, rather than from the raw decoder
output. -/
def Tensor.usesInterp : Tensor → Bool
  | Tensor.decoderDisp _ _ => false
  | Tensor.interp _ _ _ _ _ => true
  | Tensor.scaledDispOf src => src.usesInterp
  | Tensor.depthOf src => src.usesInterp
  | Tensor.scale _ src => src.usesInterp

/-- A concrete OXFORD frame configuration used to instantiate theorems with
hypotheses: the default crop area `(0, 240, 1280, 720)` of `--crop_area`
(test_simple.py line 78), a 1280x960 source image, the 640x192 feed
resolution and raw-disparity output. -/
def exampleFrame : FrameArgs :=
  { dataset := Dataset.OXFORD
    pred_metric_depth := false
    crop_area := ⟨0, 240, 1280, 720⟩
    imageWidth := 1280
    imageHeight := 960
    feed_width := 640
    feed_height := 192
    output_name := "0000000001" }

/-- The frame `exampleFrame` with metric-depth output requested. -/
def exampleFrameMetric : FrameArgs :=
  { exampleFrame with pred_metric_depth := true }

/-- A concrete run configuration: metric depth requested from the
mono-trained model `mono_640x192` (so the warning fires), one frame. -/
def exampleRun : RunArgs :=
  { model_name := "mono_640x192"
    pred_metric_depth := true
    frames := [("2014-06-26-09-31-18/left/0000000001.jpg", exampleFrame)] }

/-! ### Theorems -/

/-- Evaluation of the constructed Oxford intrinsics to explicit rationals:
`fx = 983.044006/1280`, `fy = 983.044006/960`, `cx = 643.146973/1280`,
`cy = 192.878998/960`. -/
theorem oxfordK_eval :
    oxfordK = { fx := 491522003 / 640000000
                fy := 491522003 / 480000000
                cx := 643146973 / 1280000000
                cy := 96439499 / 480000000 } := by
  simp only [oxfordK, compute_cropped_intrinsics, oxford_crop_area, crop_width,
    crop_height, crop_ci, crop_cj, CameraIntrinsics.mk.injEq]
  norm_num

/-- C1: `compute_cropped_intrinsics` follows the stated algorithm — the
focal lengths are normalized once by the original sensor dimensions and
are independent of the crop, and the principal point is shifted by
`(crop_extent - 1)/2` minus the far-corner-anchored crop center before
being normalized by the original sensor dimensions; on the concrete
configuration (sensor 1280x960, `fx_px = fy_px = 983.044006`,
`cx_px = 643.646973`, `cy_px = 493.378998`, crop `(0, 300, 1280, 760)`)
this gives `crop_width = 1280`, `crop_height = 460`,
`fx = 983.044006/1280` and `fy = 983.044006/960`. -/
theorem C1_cropped_intrinsics_algorithm :
    (∀ (width height fx_px fy_px cx_px cy_px : ℚ) (crop : CropArea),
      compute_cropped_intrinsics width height fx_px fy_px cx_px cy_px crop =
        { fx := fx_px / width
          fy := fy_px / height
          cx := (cx_px + (crop_width crop - 1) / 2 - crop_cj crop) / width
          cy := (cy_px + (crop_height crop - 1) / 2 - crop_ci crop) / height }) ∧
    crop_width oxford_crop_area = 1280 ∧
    crop_height oxford_crop_area = 460 ∧
    oxfordK.fx = 983.044006 / 1280 ∧
    oxfordK.fy = 983.044006 / 960 := by
  refine ⟨fun _ _ _ _ _ _ _ => rfl, ?_, ?_, ?_, ?_⟩ <;>
    simp only [crop_width, crop_height, oxford_crop_area, oxfordK_eval] <;> norm_num

/-- C2: OXFORD-kind metric scaling multiplies every raw depth value by
`oxford_baseline / 0.1 = 0.24 / 0.1 = 2.4`; in particular a raw depth of
`10.0` becomes a metric depth of `24.0`. -/
theorem C2_oxford_metric_scaling :
    (∀ raw_depth : ℚ,
      oxford_metric_depth raw_depth = (oxford_baseline / 0.1) * raw_depth) ∧
    (∀ raw_depth : ℚ, oxford_metric_depth raw_depth = 2.4 * raw_depth) ∧
    oxford_metric_depth 10 = 24 := by
  have h : oxford_stereo_scale_factor = 2.4 := by
    simp only [oxford_stereo_scale_factor, oxford_baseline]; norm_num
  refine ⟨fun d => rfl, fun d => ?_, ?_⟩
  · rw [oxford_metric_depth, h]
  · rw [oxford_metric_depth, h]; norm_num

/-- C5 counterexample: the single intrinsics configuration constructed by
`OXFORDDataset.__init__` does NOT have all of `fx, fy, cx, cy` in `[0,1]`:
`fy = 983.044006 / 960 > 1`. -/
theorem C5_entries_in_unit_interval_counterexample :
    ¬(0 ≤ oxfordK.fx ∧ oxfordK.fx ≤ 1 ∧ 0 ≤ oxfordK.fy ∧ oxfordK.fy ≤ 1 ∧
      0 ≤ oxfordK.cx ∧ oxfordK.cx ≤ 1 ∧ 0 ≤ oxfordK.cy ∧ oxfordK.cy ≤ 1) := by
  simp only [oxfordK_eval]
  norm_num

/-- C5 amended: after normalization by the original sensor resolution,
`fx`, `cx` and `cy` of the constructed configuration lie in `[0,1]`, but
`fy = 983.044006/960` exceeds 1 (the sensor is wider than tall while the
focal length in pixels is the same on both axes); all four entries lie in
`[0, 1.03]`. -/
theorem C5_entries_bounds :
    0 ≤ oxfordK.fx ∧ oxfordK.fx ≤ 1 ∧
    0 ≤ oxfordK.cx ∧ oxfordK.cx ≤ 1 ∧
    0 ≤ oxfordK.cy ∧ oxfordK.cy ≤ 1 ∧
    0 ≤ oxfordK.fy ∧ 1 < oxfordK.fy ∧ oxfordK.fy ≤ 1.03 := by
  simp only [oxfordK_eval]
  norm_num

/-- C6 counterexample: for the crop window `(100, 200, 300, 400)`, whose
corner `(x0, y0) = (100, 200)` is not the origin, the code's
far-corner-anchored crop center still equals the window's true geometric
center — so the equivalence does not hold "only when x0=0 and y0=0". -/
theorem C6_crop_center_counterexample :
    crop_center ⟨100, 200, 300, 400⟩ = true_center ⟨100, 200, 300, 400⟩ ∧
    ¬((100 : ℚ) = 0 ∧ (200 : ℚ) = 0) := by
  simp only [crop_center, true_center, crop_cj, crop_ci, crop_width, crop_height,
    Prod.ext_iff]
  norm_num

/-- C6 amended: for EVERY crop window, the crop center computed as
`(x1 - crop_width/2, y1 - crop_height/2)` equals the window's true
geometric center `((x0+x1)/2, (y0+y1)/2)` — the far-corner anchoring is
algebraically the midpoint, with no restriction to `x0 = 0`, `y0 = 0`. -/
theorem C6_crop_center_is_true_center :
    ∀ crop : CropArea, crop_center crop = true_center crop := by
  intro crop
  rw [Prod.ext_iff]
  constructor <;>
    simp only [crop_center, true_center, crop_cj, crop_ci, crop_width, crop_height] <;>
    ring

/-- C3: when a crop window is supplied (dataset OXFORD), the image is
cropped before being resized to the feed resolution — the input fed to the
network is `resize(crop(loaded image))` — and the disparity field is
interpolated back to the resolution the image had before the feed-resize
(its post-crop width and height) using bilinear interpolation with
`align_corners=False`. -/
theorem C3_crop_before_resize (k : ℚ) (a : FrameArgs)
    (h : a.dataset = Dataset.OXFORD) :
    (processFrame k a).input_image =
      ImageState.resized
        (ImageState.cropped (ImageState.loaded a.imageWidth a.imageHeight) a.crop_area)
        a.feed_width a.feed_height ResampleFilter.lanczos ∧
    (processFrame k a).disp_resized =
      Tensor.interp (Tensor.decoderDisp a.feed_height a.feed_width)
        (a.crop_area.y1 - a.crop_area.y0) (a.crop_area.x1 - a.crop_area.x0)
        InterpMode.bilinear false := by
  constructor <;> simp [processFrame, h, ImageState.size]

/-- C3 witness: the theorem instantiated at the concrete OXFORD frame
configuration with the default crop area `(0, 240, 1280, 720)`. -/
theorem C3_crop_before_resize_witness :
    (processFrame 5.4 exampleFrame).input_image =
      ImageState.resized
        (ImageState.cropped (ImageState.loaded 1280 960) ⟨0, 240, 1280, 720⟩)
        640 192 ResampleFilter.lanczos ∧
    (processFrame 5.4 exampleFrame).disp_resized =
      Tensor.interp (Tensor.decoderDisp 192 640) (720 - 240) (1280 - 0)
        InterpMode.bilinear false :=
  C3_crop_before_resize 5.4 exampleFrame rfl

/-- C4: for every frame, the visualization normalizer is built with
`vmin` the array minimum and `vmax` the 95th percentile of the array,
while the numeric array persisted to the `.npy` file is written exactly as
given, with no clipping; on a synthetic 21-pixel map whose last pixel is
an extreme outlier of value 1000, the normalization range is `[1, 1]`
(the outlier lies strictly outside it) while the persisted array still
contains the outlier unmodified. -/
theorem C4_percentile_vis_unclipped_npy :
    (∀ numeric_array disp_resized_np : List ℚ,
      (write_artifacts numeric_array disp_resized_np).npyData = numeric_array ∧
      (write_artifacts numeric_array disp_resized_np).visVmin = np_min disp_resized_np ∧
      (write_artifacts numeric_array disp_resized_np).visVmax =
        np_percentile disp_resized_np 95) ∧
    np_min outlierMap = 1 ∧
    np_percentile outlierMap 95 = 1 ∧
    np_percentile outlierMap 95 < 1000 ∧
    (write_artifacts outlierMap outlierMap).npyData = outlierMap ∧
    outlierMap.getLast? = some 1000 := by
  refine ⟨fun _ _ => ⟨rfl, rfl, rfl⟩, ?_, ?_, ?_, rfl, ?_⟩
  · simp only [np_min, outlierMap, List.replicate]
    norm_num
  · simp only [np_percentile, outlierMap, sortQ, insertSorted, List.replicate,
      List.foldr]
    norm_num [Int.toNat_ofNat]
    simp
  · simp only [np_percentile, outlierMap, sortQ, insertSorted, List.replicate,
      List.foldr]
    norm_num [Int.toNat_ofNat]
    simp
  · simp [outlierMap]

/-- C7: per frame, exactly one `.npy` file is written, and metric scaling
and raw-disparity output are mutually exclusive, selected by the
`pred_metric_depth` flag: with the flag set the file is
`{stem}_depth.npy` holding the dataset-scaled metric depth, otherwise it
is `{stem}_disp.npy` holding the scaled disparity, which no metric factor
touches (the frame output does not depend on the stereo scale factor at
all in that case). -/
theorem C7_metric_raw_mutually_exclusive (k k2 : ℚ) (a : FrameArgs) :
    (npySaves (processFrame k a).saves).length = 1 ∧
    (a.pred_metric_depth = true →
      npySaves (processFrame k a).saves =
        [FileSave.npy (a.output_name ++ "_depth.npy")
          (if a.dataset = Dataset.KITTI then
            Tensor.scale k (Tensor.depthOf (Tensor.decoderDisp a.feed_height a.feed_width))
           else
            Tensor.scale oxford_stereo_scale_factor
              (Tensor.depthOf (Tensor.decoderDisp a.feed_height a.feed_width)))]) ∧
    (a.pred_metric_depth = false →
      npySaves (processFrame k a).saves =
        [FileSave.npy (a.output_name ++ "_disp.npy")
          (Tensor.scaledDispOf (Tensor.decoderDisp a.feed_height a.feed_width))] ∧
      processFrame k a = processFrame k2 a) := by
  refine ⟨?_, fun hm => ?_, fun hm => ⟨?_, ?_⟩⟩ <;>
    cases hd : a.pred_metric_depth <;>
      simp_all [processFrame, npySaves, disp_to_depth]

/-- C7 witness: the theorem instantiated at the concrete OXFORD frame
configuration, once with metric output and once without. -/
theorem C7_metric_raw_mutually_exclusive_witness :
    (npySaves (processFrame 5.4 exampleFrameMetric).saves =
      [FileSave.npy ("0000000001" ++ "_depth.npy")
        (if Dataset.OXFORD = Dataset.KITTI then
          Tensor.scale 5.4 (Tensor.depthOf (Tensor.decoderDisp 192 640))
         else
          Tensor.scale oxford_stereo_scale_factor
            (Tensor.depthOf (Tensor.decoderDisp 192 640)))]) ∧
    (npySaves (processFrame 5.4 exampleFrame).saves =
      [FileSave.npy ("0000000001" ++ "_disp.npy")
        (Tensor.scaledDispOf (Tensor.decoderDisp 192 640))] ∧
     processFrame 5.4 exampleFrame = processFrame 2.4 exampleFrame) :=
  ⟨(C7_metric_raw_mutually_exclusive 5.4 2.4 exampleFrameMetric).2.1 rfl,
   (C7_metric_raw_mutually_exclusive 5.4 2.4 exampleFrame).2.2 rfl⟩

/-- C8: `get_image_path` maps the side token through the fixed two-entry
table `{"l": "left", "r": "right"}` and joins
`folder/side_name/frame_index+ext` — side `"l"` uses the `"left"` path
segment — and every side token outside the table fails with the
unknown-side error. -/
theorem C8_resolve_side_tokens (folder frame_index side img_ext : String) :
    get_image_path folder frame_index "l" img_ext =
      Except.ok (folder ++ "/" ++ "left" ++ "/" ++ (frame_index ++ img_ext)) ∧
    get_image_path folder frame_index "r" img_ext =
      Except.ok (folder ++ "/" ++ "right" ++ "/" ++ (frame_index ++ img_ext)) ∧
    (side ≠ "l" → side ≠ "r" →
      get_image_path folder frame_index side img_ext =
        Except.error (UnknownSideError.unknownSide side)) := by
  refine ⟨rfl, rfl, fun h1 h2 => ?_⟩
  have e1 : (side == "l") = false := beq_eq_false_iff_ne.mpr h1
  have e2 : (side == "r") = false := beq_eq_false_iff_ne.mpr h2
  simp [get_image_path, side_map, List.lookup, e1, e2]

/-- C8 witness: the theorem instantiated at a concrete folder, frame index
and extension, with the unknown side token `"x"`. -/
theorem C8_resolve_side_tokens_witness :
    get_image_path "2014-06-26-09-31-18" "0000000001" "l" ".jpg" =
      Except.ok ("2014-06-26-09-31-18" ++ "/" ++ "left" ++ "/" ++
        ("0000000001" ++ ".jpg")) ∧
    get_image_path "2014-06-26-09-31-18" "0000000001" "r" ".jpg" =
      Except.ok ("2014-06-26-09-31-18" ++ "/" ++ "right" ++ "/" ++
        ("0000000001" ++ ".jpg")) ∧
    get_image_path "2014-06-26-09-31-18" "0000000001" "x" ".jpg" =
      Except.error (UnknownSideError.unknownSide "x") := by
  have h := C8_resolve_side_tokens "2014-06-26-09-31-18" "0000000001" "x" ".jpg"
  exact ⟨h.1, h.2.1, h.2.2 (by decide) (by decide)⟩

/-- C9: when metric depth is requested for a model whose name does not
contain `"stereo"`, the warning fires, but it is non-fatal: the run still
processes every input frame (all paths not ending in `"_disp.jpg"`), each
producing its full pair of output files. -/
theorem C9_metric_warning_nonfatal (k : ℚ) (r : RunArgs)
    (hm : r.pred_metric_depth = true) (hs : containsStereo r.model_name = false) :
    (runInference k r).1 = true ∧
    (runInference k r).2.length =
      (r.frames.filter fun f => !(endsWithStr f.1 "_disp.jpg")).length ∧
    ∀ out ∈ (runInference k r).2, out.saves.length = 2 := by
  refine ⟨?_, ?_, ?_⟩
  · simp [runInference, metricWarning, hm, hs]
  · simp [runInference]
  · intro out hout
    simp only [runInference, List.mem_map] at hout
    obtain ⟨f, _, rfl⟩ := hout
    simp [processFrame]

/-- C9 witness: the theorem instantiated at a run requesting metric depth
from the mono-trained model `mono_640x192`, with one frame: the warning
fires and the frame is still processed. -/
theorem C9_metric_warning_nonfatal_witness :
    (runInference 5.4 exampleRun).1 = true ∧
    (runInference 5.4 exampleRun).2.length = 1 := by
  have h := C9_metric_warning_nonfatal 5.4 exampleRun rfl (by decide)
  refine ⟨h.1, ?_⟩
  rw [h.2.1]
  decide

/-- C10: for every processed frame, the array persisted to the `.npy`
file is computed from the disparity tensor at the network's feed
resolution — it involves no interpolation step and its shape is
`(feed_height, feed_width)` — while the colormapped `.jpeg` is rendered
from `disp_resized`, the tensor interpolated back to the
pre-feed-resize image resolution. -/
theorem C10_npy_from_feed_resolution (k : ℚ) (a : FrameArgs) :
    ∃ name data,
      (processFrame k a).saves =
        [FileSave.npy name data,
         FileSave.jpeg (a.output_name ++ "_disp.jpeg") (processFrame k a).disp_resized] ∧
      data.usesInterp = false ∧
      data.shape = (a.feed_height, a.feed_width) ∧
      ((processFrame k a).disp_resized).usesInterp = true := by
  cases hm : a.pred_metric_depth with
  | false =>
    refine ⟨a.output_name ++ "_disp.npy",
      Tensor.scaledDispOf (Tensor.decoderDisp a.feed_height a.feed_width),
      ?_, rfl, rfl, rfl⟩
    simp [processFrame, disp_to_depth, hm]
  | true =>
    cases hd : a.dataset with
    | KITTI =>
      refine ⟨a.output_name ++ "_depth.npy",
        Tensor.scale k (Tensor.depthOf (Tensor.decoderDisp a.feed_height a.feed_width)),
        ?_, rfl, rfl, rfl⟩
      simp [processFrame, disp_to_depth, hm, hd]
    | OXFORD =>
      refine ⟨a.output_name ++ "_depth.npy",
        Tensor.scale oxford_stereo_scale_factor
          (Tensor.depthOf (Tensor.decoderDisp a.feed_height a.feed_width)),
        ?_, rfl, rfl, rfl⟩
      simp [processFrame, disp_to_depth, hm, hd]
